import Mathlib

/-!
# Verification of `galaxyutils` time tracker (`src/time_tracker/time_tracker.py`)

Shallow embedding of the `TimeTracker` class and its collaborators.

Modelling decisions, mirroring the Python source:

* Python `float` timestamps are modelled as exact rationals `ℚ`; `time()`
  calls inside a method become an explicit `now : ℚ` argument of that method.
* A Python `dict` is modelled as an insertion-ordered association list with
  unique keys; `dictLookup`, `dictSet` (the `d[k] = v` statement) and
  `dictDel` (the `del d[k]` statement) give its operations.
* An operation that can raise returns `Except PyErr _`; a raised exception
  aborts the method, and every raise in the source happens before any
  mutation, so a failing call leaves the object unchanged.
* `pickle.dumps(..).hex()` / `pickle.loads(bytes.fromhex(..))` are modelled
  by a concrete token serialization (`pickle_dumps` / `pickle_loads`): hex
  encoding of a byte string is a bijection, so the blob is carried directly.
  `pickle_loads` fails (as `pickle` does) on a blob that is not a valid
  encoding of a `game_id → record` map.
* `int(x)` on a Python float truncates toward zero: `pyInt`.
-/

/-- Python `int(x)`: truncation toward zero (`⌊x⌋` for `x ≥ 0`, `⌈x⌉` below). -/
def pyInt (q : ℚ) : ℤ := if 0 ≤ q then ⌊q⌋ else ⌈q⌉

/-- Exceptions the embedded methods can raise. -/
inductive PyErr where
  /-- Python `KeyError`: indexing a `dict` at a missing key. -/
  | keyError
  /-- `GameNotTrackedException` from `time_tracker.py`. -/
  | gameNotTracked
  /-- Failure of `pickle.loads` / `bytes.fromhex` on a bad blob. -/
  | unpicklingError
deriving DecidableEq, Repr

/-- A Python `dict` keyed by strings: insertion-ordered association list. -/
abbrev Dict (α : Type) := List (String × α)

/-- `k in d` / `d[k]` lookup: first entry with the given key. -/
def dictLookup {α : Type} : Dict α → String → Option α
  | [], _ => none
  | (k, v) :: rest, key => if k = key then some v else dictLookup rest key

/-- The statement `d[key] = v`: overwrite in place, or append a new entry. -/
def dictSet {α : Type} : Dict α → String → α → Dict α
  | [], key, v => [(key, v)]
  | (k, w) :: rest, key, v =>
      if k = key then (k, v) :: rest else (k, w) :: dictSet rest key v

/-- The statement `del d[key]` (callers check membership first). -/
def dictDel {α : Type} : Dict α → String → Dict α
  | [], _ => []
  | (k, w) :: rest, key => if k = key then rest else (k, w) :: dictDel rest key

/-- Keys of a dict are pairwise distinct — true of every Python `dict`. -/
def dictNodup {α : Type} (d : Dict α) : Prop := (d.map Prod.fst).Nodup

instance {α : Type} (d : Dict α) : Decidable (dictNodup d) := by
  unfold dictNodup; infer_instance

/-- The per-game inner dict `{'time_played': ..., 'last_played': ...}` of
`_game_time_cache` (the spec's Accumulation Record). -/
structure Record where
  time_played : ℚ
  last_played : ℚ
deriving DecidableEq, Repr

/-- `_game_time_cache`: game id → Accumulation Record. -/
abbrev Store := Dict Record

/-- The `_RunningGameInfo` dataclass (both fields default to `None`). -/
structure RunningGameInfo where
  game_id : Option String := none
  start_time : Option ℚ := none
deriving DecidableEq, Repr

/-- `galaxy.api.types.GameTime`: the snapshot returned by `get_tracked_time`. -/
structure GameTime where
  game_id : String
  time_played : ℤ
  last_played_time : ℤ
deriving DecidableEq, Repr

/-- The `TimeTracker` object state. -/
structure TimeTracker where
  /-- `self._running_games_dict` -/
  running_games_dict : Dict RunningGameInfo
  /-- `self._game_time_cache` -/
  game_time_cache : Store
deriving DecidableEq, Repr

/-! ## The serialization boundary (`pickle` + hex) -/

/-- Tokens of the serialized blob. -/
inductive Tok where
  | tnat (n : ℕ)
  | tint (i : ℤ)
  | tstr (s : String)
deriving DecidableEq, Repr

/-- A serialized blob (the hex string, decoded back to its byte tokens). -/
abbrev Blob := List Tok

def encRat (q : ℚ) : Blob := [.tint q.num, .tnat q.den]

def encRecord (r : Record) : Blob := encRat r.time_played ++ encRat r.last_played

def encEntry (e : String × Record) : Blob := .tstr e.1 :: encRecord e.2

def encEntries : Store → Blob
  | [] => []
  | e :: rest => encEntry e ++ encEntries rest

/-- `pickle.dumps(self._game_time_cache).hex()`. -/
def pickle_dumps (m : Store) : Blob := .tnat m.length :: encEntries m

def decRat : Blob → Option (ℚ × Blob)
  | .tint i :: .tnat n :: rest => some (mkRat i n, rest)
  | _ => none

def decRecord (b : Blob) : Option (Record × Blob) := do
  let (tp, b) ← decRat b
  let (lp, b) ← decRat b
  some (⟨tp, lp⟩, b)

def decEntry : Blob → Option ((String × Record) × Blob)
  | .tstr s :: rest => do
      let (r, b) ← decRecord rest
      some ((s, r), b)
  | _ => none

def decEntries : ℕ → Blob → Option (Store × Blob)
  | 0, b => some ([], b)
  | n + 1, b => do
      let (e, b) ← decEntry b
      let (rest, b) ← decEntries n b
      some (e :: rest, b)

/-- `pickle.loads(bytes.fromhex(blob))`: `none` models the exception raised
on a blob that is not a valid encoding of a map. -/
def pickle_loads (b : Blob) : Option Store :=
  match b with
  | .tnat n :: rest =>
      match decEntries n rest with
      | some (m, []) => some m
      | _ => none
  | _ => none

/-! ## The `TimeTracker` methods -/

namespace TimeTracker

/-- `TimeTracker.__init__(self, game_time_cache: str = None)`.
`none` covers every falsy argument (the `None` default and the empty
string); `some blob` is a truthy hex string, fed to `pickle.loads`.
A deserialization failure propagates out of the constructor. -/
def init (game_time_cache : Option Blob) : Except PyErr TimeTracker :=
  match game_time_cache with
  | none => .ok ⟨[], []⟩
  | some blob =>
      match pickle_loads blob with
      | some m => .ok ⟨[], m⟩
      | none => .error .unpicklingError

/-- `TimeTracker.start_tracking_game(self, game_id, start_time=time())`.
When `game_id` is absent from the cache, the source runs
`self._game_time_cache[game_id]['time_played'] = 0`, which indexes the
outer dict at the missing key and raises `KeyError` before anything is
mutated. Otherwise the session is inserted, with `start_time` replaced by
`now` (the `time()` call) when falsy (`not start_time`, i.e. zero). -/
def start_tracking_game (t : TimeTracker) (game_id : String) (start_time : ℚ)
    (now : ℚ) : Except PyErr TimeTracker :=
  match dictLookup t.game_time_cache game_id with
  | none => .error .keyError
  | some _ =>
      let info : RunningGameInfo :=
        ⟨some game_id, some (if start_time = 0 then now else start_time)⟩
      .ok { t with running_games_dict := dictSet t.running_games_dict game_id info }

/-- `TimeTracker.stop_tracking_game(self, game_id)`. -/
def stop_tracking_game (t : TimeTracker) (game_id : String) :
    Except PyErr TimeTracker :=
  match dictLookup t.running_games_dict game_id with
  | none => .error .gameNotTracked
  | some _ => .ok { t with running_games_dict := dictDel t.running_games_dict game_id }

/-- `TimeTracker.get_tracked_time(self, game_id)`; `now` is the `time()`
call. Raises `GameNotTrackedException` when no session is active; then
reads `self._game_time_cache[game_id]` (a `KeyError` when the record is
missing, before any mutation), sets `last_played` to `now`, adds the
(possibly negative) elapsed minutes to `time_played`, and returns the
`GameTime` snapshot with both fields truncated by `int(..)`. -/
def get_tracked_time (t : TimeTracker) (game_id : String) (now : ℚ) :
    Except PyErr (GameTime × TimeTracker) :=
  match dictLookup t.running_games_dict game_id with
  | none => .error .gameNotTracked
  | some _ =>
      match dictLookup t.game_time_cache game_id with
      | none => .error .keyError
      | some r =>
          let start_time := r.last_played
          let current_time := now
          let minutes_passed := (current_time - start_time) / 60
          let time_played := r.time_played + minutes_passed
          .ok (⟨game_id, pyInt time_played, pyInt current_time⟩,
               { t with game_time_cache :=
                   dictSet t.game_time_cache game_id ⟨time_played, current_time⟩ })

/-- `TimeTracker.get_time_cache(self)`. -/
def get_time_cache (t : TimeTracker) : Store := t.game_time_cache

/-- `TimeTracker.get_time_cache_hex(self)`. -/
def get_time_cache_hex (t : TimeTracker) : Blob := pickle_dumps t.game_time_cache

end TimeTracker

/-! ## Operation sequences (for reachability / invariant claims) -/

/-- One public operation, with the value each internal `time()` call
returns carried explicitly. -/
inductive Op where
  | start (game_id : String) (start_time now : ℚ)
  | stop (game_id : String)
  | query (game_id : String) (now : ℚ)
deriving DecidableEq, Repr

/-- One call; a raised exception leaves the object unchanged (every raise in
the source precedes any mutation). -/
def stepOp (t : TimeTracker) : Op → TimeTracker
  | .start g s n =>
      match t.start_tracking_game g s n with
      | .ok t' => t'
      | .error _ => t
  | .stop g =>
      match t.stop_tracking_game g with
      | .ok t' => t'
      | .error _ => t
  | .query g n =>
      match t.get_tracked_time g n with
      | .ok (_, t') => t'
      | .error _ => t

/-- A sequence of calls on one tracker object. -/
def runOps (t : TimeTracker) : List Op → TimeTracker
  | [] => t
  | op :: ops => runOps (stepOp t op) ops

/-! ## Dictionary lemmas -/

theorem dictLookup_set_self {α : Type} (d : Dict α) (k : String) (v : α) :
    dictLookup (dictSet d k v) k = some v := by
  induction d with
  | nil => simp [dictSet, dictLookup]
  | cons e rest ih =>
      obtain ⟨k', w⟩ := e
      by_cases h : k' = k <;> simp [dictSet, dictLookup, h, ih]

theorem dictLookup_set_ne {α : Type} (d : Dict α) (k k' : String) (v : α)
    (h : k' ≠ k) : dictLookup (dictSet d k v) k' = dictLookup d k' := by
  have hk : ¬ k = k' := fun hh => h hh.symm
  induction d with
  | nil => simp [dictSet, dictLookup, hk]
  | cons e rest ih =>
      obtain ⟨k₀, w⟩ := e
      by_cases h0 : k₀ = k
      · subst h0
        simp [dictSet, dictLookup, hk]
      · simp [dictSet, dictLookup, h0, ih]

theorem dictLookup_del_ne {α : Type} (d : Dict α) (k k' : String)
    (h : k' ≠ k) : dictLookup (dictDel d k) k' = dictLookup d k' := by
  have hk : ¬ k = k' := fun hh => h hh.symm
  induction d with
  | nil => simp [dictDel]
  | cons e rest ih =>
      obtain ⟨k₀, w⟩ := e
      by_cases h0 : k₀ = k
      · subst h0
        simp [dictDel, dictLookup, hk]
      · simp [dictDel, dictLookup, h0, ih]

theorem dictLookup_eq_none_iff {α : Type} (d : Dict α) (k : String) :
    dictLookup d k = none ↔ k ∉ d.map Prod.fst := by
  induction d with
  | nil => simp [dictLookup]
  | cons e rest ih =>
      obtain ⟨k₀, w⟩ := e
      by_cases h0 : k₀ = k
      · subst h0
        simp [dictLookup]
      · have hk : ¬ k = k₀ := fun hh => h0 hh.symm
        simp [dictLookup, h0, hk, ih]

theorem dictLookup_del_self {α : Type} (d : Dict α) (k : String)
    (hd : dictNodup d) : dictLookup (dictDel d k) k = none := by
  induction d with
  | nil => rfl
  | cons e rest ih =>
      obtain ⟨k₀, w⟩ := e
      simp only [dictNodup, List.map_cons, List.nodup_cons] at hd
      by_cases h0 : k₀ = k
      · subst h0
        have hdel : dictDel ((k₀, w) :: rest) k₀ = rest := by simp [dictDel]
        rw [hdel]
        exact (dictLookup_eq_none_iff rest k₀).mpr hd.1
      · simp [dictDel, dictLookup, h0, ih hd.2]

theorem dictDel_keys_sublist {α : Type} (d : Dict α) (k : String) :
    ((dictDel d k).map Prod.fst).Sublist (d.map Prod.fst) := by
  induction d with
  | nil => simp [dictDel]
  | cons e rest ih =>
      obtain ⟨k₀, w⟩ := e
      by_cases h0 : k₀ = k
      · simp only [dictDel, h0, if_pos rfl, List.map_cons]
        exact (List.sublist_cons_self _ _)
      · simpa [dictDel, h0] using ih.cons₂ k₀

theorem dictNodup_del {α : Type} (d : Dict α) (k : String)
    (hd : dictNodup d) : dictNodup (dictDel d k) :=
  (dictDel_keys_sublist d k).nodup hd

theorem dictSet_keys_of_mem {α : Type} (d : Dict α) (k : String) (v : α)
    (h : dictLookup d k ≠ none) :
    (dictSet d k v).map Prod.fst = d.map Prod.fst := by
  induction d with
  | nil => simp [dictLookup] at h
  | cons e rest ih =>
      obtain ⟨k₀, w⟩ := e
      by_cases h0 : k₀ = k
      · simp [dictSet, h0]
      · simp only [dictLookup, if_neg h0] at h
        simp [dictSet, h0, ih h]

theorem dictSet_keys_of_not_mem {α : Type} (d : Dict α) (k : String) (v : α)
    (h : dictLookup d k = none) :
    (dictSet d k v).map Prod.fst = d.map Prod.fst ++ [k] := by
  induction d with
  | nil => simp [dictSet]
  | cons e rest ih =>
      obtain ⟨k₀, w⟩ := e
      by_cases h0 : k₀ = k
      · simp [dictLookup, h0] at h
      · simp only [dictLookup, if_neg h0] at h
        simp [dictSet, h0, ih h]

theorem dictNodup_set {α : Type} (d : Dict α) (k : String) (v : α)
    (hd : dictNodup d) : dictNodup (dictSet d k v) := by
  unfold dictNodup at hd ⊢
  by_cases h : dictLookup d k = none
  · rw [dictSet_keys_of_not_mem d k v h]
    have hk : k ∉ d.map Prod.fst := (dictLookup_eq_none_iff d k).mp h
    simp [List.nodup_append, hd, hk, List.disjoint_singleton]
  · rw [dictSet_keys_of_mem d k v h]
    exact hd

/-! ## Serialization round-trip lemmas -/

theorem decRat_encRat (q : ℚ) (b : Blob) :
    decRat (encRat q ++ b) = some (q, b) := by
  simp [encRat, decRat, Rat.mkRat_self]

theorem decRecord_encRecord (r : Record) (b : Blob) :
    decRecord (encRecord r ++ b) = some (r, b) := by
  simp [encRecord, decRecord, List.append_assoc, decRat_encRat]

theorem decEntry_encEntry (e : String × Record) (b : Blob) :
    decEntry (encEntry e ++ b) = some (e, b) := by
  obtain ⟨s, r⟩ := e
  simp [encEntry, decEntry, decRecord_encRecord]

theorem decEntries_encEntries (m : Store) (b : Blob) :
    decEntries m.length (encEntries m ++ b) = some (m, b) := by
  induction m generalizing b with
  | nil => simp [encEntries, decEntries]
  | cons e rest ih =>
      simp [encEntries, decEntries, List.append_assoc, decEntry_encEntry, ih]

theorem pickle_loads_dumps (m : Store) : pickle_loads (pickle_dumps m) = some m := by
  have h := decEntries_encEntries m []
  simp only [List.append_nil] at h
  simp [pickle_dumps, pickle_loads, h]

/-! ## Helper characterizations -/

/-- Successful `get_tracked_time`: with an active session and an existing
record `r`, it returns the truncated snapshot and writes back
`{time_played + (now - last_played)/60, now}`. -/
theorem get_tracked_time_ok (t : TimeTracker) (g : String) (now : ℚ)
    (s : RunningGameInfo) (r : Record)
    (hs : dictLookup t.running_games_dict g = some s)
    (hr : dictLookup t.game_time_cache g = some r) :
    t.get_tracked_time g now =
      .ok (⟨g, pyInt (r.time_played + (now - r.last_played) / 60), pyInt now⟩,
           { t with game_time_cache := (dictSet t.game_time_cache g
               ⟨r.time_played + (now - r.last_played) / 60, now⟩ : Store) }) := by
  simp [TimeTracker.get_tracked_time, hs, hr]

theorem dictLookup_del_isSome {α : Type} (d : Dict α) (k k' : String)
    (h : (dictLookup (dictDel d k) k').isSome) : (dictLookup d k').isSome := by
  induction d with
  | nil => simpa [dictDel] using h
  | cons e rest ih =>
      obtain ⟨k₀, w⟩ := e
      by_cases h0 : k₀ = k
      · simp only [dictDel, if_pos h0] at h
        by_cases h1 : k₀ = k'
        · simp [dictLookup, h1]
        · simpa [dictLookup, h1] using h
      · simp only [dictDel, if_neg h0] at h
        by_cases h1 : k₀ = k'
        · simp [dictLookup, h1]
        · simp only [dictLookup, if_neg h1] at h ⊢
          exact ih h

/-- Every game with an active session has an Accumulation Record. -/
def SessionsCovered (t : TimeTracker) : Prop :=
  ∀ g, (dictLookup t.running_games_dict g).isSome →
    (dictLookup t.game_time_cache g).isSome

theorem stepOp_sessionsCovered (t : TimeTracker) (op : Op)
    (h : SessionsCovered t) : SessionsCovered (stepOp t op) := by
  cases op with
  | start g s n =>
      cases hc : dictLookup t.game_time_cache g with
      | none => simpa [stepOp, TimeTracker.start_tracking_game, hc] using h
      | some r =>
          intro g' hg'
          simp only [stepOp, TimeTracker.start_tracking_game, hc] at hg' ⊢
          by_cases h1 : g' = g
          · subst h1
            simp [hc]
          · rw [dictLookup_set_ne _ _ _ _ h1] at hg'
            exact h g' hg'
  | stop g =>
      cases hrun : dictLookup t.running_games_dict g with
      | none => simpa [stepOp, TimeTracker.stop_tracking_game, hrun] using h
      | some s =>
          intro g' hg'
          simp only [stepOp, TimeTracker.stop_tracking_game, hrun] at hg' ⊢
          exact h g' (dictLookup_del_isSome _ _ _ hg')
  | query g n =>
      cases hrun : dictLookup t.running_games_dict g with
      | none => simpa [stepOp, TimeTracker.get_tracked_time, hrun] using h
      | some s =>
          cases hc : dictLookup t.game_time_cache g with
          | none => simpa [stepOp, TimeTracker.get_tracked_time, hrun, hc] using h
          | some r =>
              intro g' hg'
              simp only [stepOp, get_tracked_time_ok t g n s r hrun hc] at hg' ⊢
              by_cases h1 : g' = g
              · subst h1
                simp [dictLookup_set_self]
              · rw [dictLookup_set_ne _ _ _ _ h1]
                exact h g' hg'

theorem runOps_sessionsCovered (t : TimeTracker) (ops : List Op)
    (h : SessionsCovered t) : SessionsCovered (runOps t ops) := by
  induction ops generalizing t with
  | nil => simpa [runOps] using h
  | cons op ops ih => exact ih _ (stepOp_sessionsCovered t op h)

theorem get_tracked_time_ne_keyError (t : TimeTracker) (g : String) (now : ℚ)
    (h : SessionsCovered t) : t.get_tracked_time g now ≠ .error .keyError := by
  cases hrun : dictLookup t.running_games_dict g with
  | none => simp [TimeTracker.get_tracked_time, hrun]
  | some s =>
      obtain ⟨r, hr⟩ := Option.isSome_iff_exists.mp (h g (by simp [hrun]))
      rw [get_tracked_time_ok t g now s r hrun hr]
      simp

/-! ## Claims -/

/-- C1: the claim says `start_tracking_game(entity_id, start_time)` on an
entity with no Accumulation Record creates a record `{0, start_time}` and a
session without raising. The code instead raises `KeyError`: the lazy-create
branch indexes `self._game_time_cache[game_id]` before the inner dict
exists, so on a fresh tracker `start_tracking_game("g", 5)` fails and
nothing is created. -/
theorem C1_fresh_start_raises_keyError :
    TimeTracker.init none = .ok ⟨[], []⟩ ∧
    TimeTracker.start_tracking_game ⟨[], []⟩ "g" 5 7 = .error .keyError :=
  ⟨rfl, rfl⟩

/-- C2 counterexample: from a tracker seeded with record
`{time_played = 10, last_played = 120}` for `"g"` and an active session, a
query at `now = 60 < 120` does not leave the cumulative total unchanged: it
drops it from `10` to `9` (the negative delta is subtracted, not clamped). -/
theorem C2_clamp_counterexample :
    TimeTracker.init (some (pickle_dumps [("g", ⟨10, 120⟩)])) =
      .ok ⟨[], [("g", ⟨10, 120⟩)]⟩ ∧
    TimeTracker.start_tracking_game ⟨[], [("g", ⟨10, 120⟩)]⟩ "g" 5 5 =
      .ok ⟨[("g", ⟨some "g", some 5⟩)], [("g", ⟨10, 120⟩)]⟩ ∧
    TimeTracker.get_tracked_time
        ⟨[("g", ⟨some "g", some 5⟩)], [("g", ⟨10, 120⟩)]⟩ "g" 60 =
      .ok (⟨"g", 9, 60⟩, ⟨[("g", ⟨some "g", some 5⟩)], [("g", ⟨9, 60⟩)]⟩) ∧
    (9 : ℚ) < 10 := by
  refine ⟨?_, ?_, ?_, by norm_num⟩
  · simp [TimeTracker.init, pickle_loads_dumps]
  · norm_num [TimeTracker.start_tracking_game, dictLookup, dictSet]
  · norm_num [TimeTracker.get_tracked_time, dictLookup, dictSet, pyInt]

/-- C2 amended: a query on an entity with an active session and record `r`
adds the unclamped delta `(now - last_played)/60` to the cumulative total.
When `now < last_played` (clock moved backward) the total strictly
decreases; it is non-decreasing only when `now ≥ last_played`. -/
theorem C2_query_adds_unclamped_delta (t : TimeTracker) (g : String)
    (r : Record) (now : ℚ)
    (hs : (dictLookup t.running_games_dict g).isSome)
    (hr : dictLookup t.game_time_cache g = some r) :
    ∃ gt t', t.get_tracked_time g now = .ok (gt, t') ∧
      dictLookup t'.game_time_cache g =
        some ⟨r.time_played + (now - r.last_played) / 60, now⟩ ∧
      (now < r.last_played →
        r.time_played + (now - r.last_played) / 60 < r.time_played) ∧
      (r.last_played ≤ now →
        r.time_played ≤ r.time_played + (now - r.last_played) / 60) := by
  obtain ⟨s, hs'⟩ := Option.isSome_iff_exists.mp hs
  refine ⟨_, _, get_tracked_time_ok t g now s r hs' hr, ?_, ?_, ?_⟩
  · exact dictLookup_set_self _ _ _
  · intro hlt
    have hneg : (now - r.last_played) / 60 < 0 :=
      div_neg_of_neg_of_pos (by linarith) (by norm_num)
    linarith
  · intro hle
    have hpos : 0 ≤ (now - r.last_played) / 60 :=
      div_nonneg (by linarith) (by norm_num)
    linarith

/-- C2 witness: instantiated at a tracker with session and record
`{10, 120}` for `"g"`, queried at `now = 60`. -/
theorem C2_query_adds_unclamped_delta_witness :
    ((dictLookup (⟨[("g", ⟨some "g", some 5⟩)], [("g", ⟨10, 120⟩)]⟩ :
        TimeTracker).running_games_dict "g").isSome ∧
     dictLookup (⟨[("g", ⟨some "g", some 5⟩)], [("g", ⟨10, 120⟩)]⟩ :
        TimeTracker).game_time_cache "g" = some ⟨10, 120⟩) ∧
    (∃ gt t',
      TimeTracker.get_tracked_time
        ⟨[("g", ⟨some "g", some 5⟩)], [("g", ⟨10, 120⟩)]⟩ "g" 60 = .ok (gt, t') ∧
      dictLookup t'.game_time_cache "g" =
        some ⟨(10 : ℚ) + ((60 : ℚ) - (120 : ℚ)) / 60, 60⟩ ∧
      ((60 : ℚ) < 120 → (10 : ℚ) + ((60 : ℚ) - 120) / 60 < 10) ∧
      ((120 : ℚ) ≤ 60 → (10 : ℚ) ≤ 10 + ((60 : ℚ) - 120) / 60)) :=
  ⟨⟨by simp [dictLookup], by simp [dictLookup]⟩,
   C2_query_adds_unclamped_delta _ "g" ⟨10, 120⟩ 60
     (by simp [dictLookup]) (by simp [dictLookup])⟩

/-- C3 counterexample: constructing from the malformed blob `[]` (not a
valid encoding of any map) does not yield a tracker with an empty store —
the constructor propagates the deserialization failure. -/
theorem C3_malformed_blob_counterexample :
    TimeTracker.init (some []) = .error .unpicklingError := rfl

/-- C3 amended: a blob that cannot be deserialized makes the constructor
raise (the failure propagates; no tracker is created); only an absent or
falsy blob argument yields a tracker with an empty store. -/
theorem C3_malformed_blob_raises (b : Blob) (h : pickle_loads b = none) :
    TimeTracker.init (some b) = .error .unpicklingError ∧
    TimeTracker.init none = .ok ⟨[], []⟩ := by
  constructor
  · simp [TimeTracker.init, h]
  · rfl

/-- C3 witness: the empty blob is malformed. -/
theorem C3_malformed_blob_raises_witness :
    pickle_loads [] = none ∧
    (TimeTracker.init (some []) = .error .unpicklingError ∧
     TimeTracker.init none = .ok ⟨[], []⟩) :=
  ⟨rfl, C3_malformed_blob_raises [] rfl⟩

/-- C4: for every tracker state, exporting the store with
`get_time_cache_hex` and constructing a new tracker from the exported blob
succeeds and reproduces exactly the same `get_time_cache` map (full
round-trip fidelity for every entity record). -/
theorem C4_export_import_roundtrip (t : TimeTracker) :
    ∃ t', TimeTracker.init (some t.get_time_cache_hex) = .ok t' ∧
      t'.get_time_cache = t.get_time_cache := by
  refine ⟨⟨[], t.game_time_cache⟩, ?_, rfl⟩
  simp [TimeTracker.init, TimeTracker.get_time_cache_hex, pickle_loads_dumps]

/-- C5 counterexample: entity `"g"` with a fresh record `{0, t0 = 0}` and an
active session, queried at `t1 = 90 > t0`. The claim predicts
`cumulative_minutes_played = round((90-0)/60) = 2`, but the code returns
`int(1.5) = 1`: `int()` truncates, it does not round to nearest. -/
theorem C5_round_counterexample :
    TimeTracker.get_tracked_time
        ⟨[("g", ⟨some "g", some 1⟩)], [("g", ⟨0, 0⟩)]⟩ "g" 90 =
      .ok (⟨"g", 1, 90⟩, ⟨[("g", ⟨some "g", some 1⟩)], [("g", ⟨3/2, 90⟩)]⟩) ∧
    round (((90 : ℚ) - 0) / 60) = 2 ∧ (1 : ℤ) ≠ 2 := by
  refine ⟨?_, by norm_num [round_eq], by norm_num⟩
  norm_num [TimeTracker.get_tracked_time, dictLookup, dictSet, pyInt]

/-- C5 amended: with a fresh record `{0, t0}` and an active session, a query
at `t1 > t0` returns `cumulative_minutes_played = int((t1-t0)/60)` and
`last_observed_timestamp = int(t1)`, both truncated toward zero by `int()`
rather than rounded to the nearest integer. -/
theorem C5_fresh_query_truncates (t : TimeTracker) (g : String) (t0 t1 : ℚ)
    (hs : (dictLookup t.running_games_dict g).isSome)
    (hr : dictLookup t.game_time_cache g = some ⟨0, t0⟩)
    (hlt : t0 < t1) :
    ∃ t', t.get_tracked_time g t1 =
      .ok (⟨g, pyInt ((t1 - t0) / 60), pyInt t1⟩, t') := by
  obtain ⟨s, hs'⟩ := Option.isSome_iff_exists.mp hs
  refine ⟨{ t with game_time_cache := (dictSet t.game_time_cache g
      ⟨(0 : ℚ) + (t1 - t0) / 60, t1⟩ : Store) }, ?_⟩
  rw [get_tracked_time_ok t g t1 s ⟨0, t0⟩ hs' hr]
  norm_num

/-- C5 witness: fresh record `{0, 0}` for `"g"`, queried at `t1 = 90`. -/
theorem C5_fresh_query_truncates_witness :
    ((dictLookup (⟨[("g", ⟨some "g", some 1⟩)], [("g", ⟨0, 0⟩)]⟩ :
        TimeTracker).running_games_dict "g").isSome ∧
     dictLookup (⟨[("g", ⟨some "g", some 1⟩)], [("g", ⟨0, 0⟩)]⟩ :
        TimeTracker).game_time_cache "g" = some ⟨0, 0⟩ ∧
     (0 : ℚ) < 90) ∧
    (∃ t', TimeTracker.get_tracked_time
        ⟨[("g", ⟨some "g", some 1⟩)], [("g", ⟨0, 0⟩)]⟩ "g" 90 =
      .ok (⟨"g", pyInt (((90 : ℚ) - 0) / 60), pyInt 90⟩, t')) :=
  ⟨⟨by simp [dictLookup], by simp [dictLookup], by norm_num⟩,
   C5_fresh_query_truncates _ "g" 0 90
     (by simp [dictLookup]) (by simp [dictLookup]) (by norm_num)⟩

/-- C6: for a game with no active session, `get_tracked_time` and
`stop_tracking_game` both raise `GameNotTrackedException`; and stop is not
idempotent — after a successful stop, a second stop on the same game
raises. (Keys of a Python dict are unique, hence `dictNodup`.) -/
theorem C6_untracked_errors_and_stop_not_idempotent (t : TimeTracker)
    (g : String) (now : ℚ) (hn : dictNodup t.running_games_dict) :
    (dictLookup t.running_games_dict g = none →
      t.get_tracked_time g now = .error .gameNotTracked ∧
      t.stop_tracking_game g = .error .gameNotTracked) ∧
    (∀ t', t.stop_tracking_game g = .ok t' →
      t'.stop_tracking_game g = .error .gameNotTracked) := by
  constructor
  · intro h
    exact ⟨by simp [TimeTracker.get_tracked_time, h],
           by simp [TimeTracker.stop_tracking_game, h]⟩
  · intro t' h
    unfold TimeTracker.stop_tracking_game at h
    split at h
    · exact Except.noConfusion h
    · simp only [Except.ok.injEq] at h
      subst h
      simp [TimeTracker.stop_tracking_game, dictLookup_del_self _ _ hn]

/-- C6 witness: one session for `"g"`; stopping twice fails the second
time. -/
theorem C6_untracked_errors_witness :
    dictNodup (⟨[("g", ⟨some "g", some 1⟩)], []⟩ :
      TimeTracker).running_games_dict ∧
    ((dictLookup (⟨[("g", ⟨some "g", some 1⟩)], []⟩ :
        TimeTracker).running_games_dict "g" = none →
      TimeTracker.get_tracked_time ⟨[("g", ⟨some "g", some 1⟩)], []⟩ "g" 0 =
        .error .gameNotTracked ∧
      TimeTracker.stop_tracking_game ⟨[("g", ⟨some "g", some 1⟩)], []⟩ "g" =
        .error .gameNotTracked) ∧
     (∀ t', TimeTracker.stop_tracking_game ⟨[("g", ⟨some "g", some 1⟩)], []⟩ "g" =
        .ok t' → t'.stop_tracking_game "g" = .error .gameNotTracked)) :=
  ⟨by simp [dictNodup],
   C6_untracked_errors_and_stop_not_idempotent _ "g" 0 (by simp [dictNodup])⟩

/-- C7: for a game whose Accumulation Record exists, the sequence start,
stop, start succeeds and every intermediate and final state carries the
store unchanged; and `stop_tracking_game` never writes the store in any
state. Only the Session entry (its start timestamp) changes. -/
theorem C7_stop_restart_preserves_store (t : TimeTracker) (g : String)
    (s1 n1 s2 n2 : ℚ) (hr : (dictLookup t.game_time_cache g).isSome) :
    (∀ g' t', t.stop_tracking_game g' = .ok t' →
      t'.game_time_cache = t.game_time_cache) ∧
    (∃ t1 t2 t3,
      t.start_tracking_game g s1 n1 = .ok t1 ∧
      t1.game_time_cache = t.game_time_cache ∧
      t1.stop_tracking_game g = .ok t2 ∧
      t2.game_time_cache = t.game_time_cache ∧
      t2.start_tracking_game g s2 n2 = .ok t3 ∧
      t3.game_time_cache = t.game_time_cache) := by
  obtain ⟨r, hr'⟩ := Option.isSome_iff_exists.mp hr
  constructor
  · intro g' t' h
    unfold TimeTracker.stop_tracking_game at h
    split at h
    · exact Except.noConfusion h
    · simp only [Except.ok.injEq] at h
      subst h
      rfl
  · refine ⟨{ t with running_games_dict := (dictSet t.running_games_dict g
        ⟨some g, some (if s1 = 0 then n1 else s1)⟩ : Dict RunningGameInfo) },
      { t with running_games_dict := (dictDel (dictSet t.running_games_dict g
        ⟨some g, some (if s1 = 0 then n1 else s1)⟩) g : Dict RunningGameInfo) },
      { t with running_games_dict := (dictSet (dictDel (dictSet t.running_games_dict g
        ⟨some g, some (if s1 = 0 then n1 else s1)⟩) g) g
        ⟨some g, some (if s2 = 0 then n2 else s2)⟩ : Dict RunningGameInfo) },
      ?_, rfl, ?_, rfl, ?_, rfl⟩
    · simp [TimeTracker.start_tracking_game, hr']
    · simp [TimeTracker.stop_tracking_game, dictLookup_set_self]
    · simp [TimeTracker.start_tracking_game, hr']

/-- C7 witness: store with one record for `"g"`, no session; start at 1,
stop, restart at 2. -/
theorem C7_stop_restart_preserves_store_witness :
    (dictLookup (⟨[], [("g", ⟨0, 0⟩)]⟩ :
        TimeTracker).game_time_cache "g").isSome ∧
    ((∀ g' t', TimeTracker.stop_tracking_game ⟨[], [("g", ⟨0, 0⟩)]⟩ g' = .ok t' →
        t'.game_time_cache = (⟨[], [("g", ⟨0, 0⟩)]⟩ :
          TimeTracker).game_time_cache) ∧
     (∃ t1 t2 t3,
        TimeTracker.start_tracking_game ⟨[], [("g", ⟨0, 0⟩)]⟩ "g" 1 1 = .ok t1 ∧
        t1.game_time_cache = (⟨[], [("g", ⟨0, 0⟩)]⟩ :
          TimeTracker).game_time_cache ∧
        t1.stop_tracking_game "g" = .ok t2 ∧
        t2.game_time_cache = (⟨[], [("g", ⟨0, 0⟩)]⟩ :
          TimeTracker).game_time_cache ∧
        t2.start_tracking_game "g" 2 2 = .ok t3 ∧
        t3.game_time_cache = (⟨[], [("g", ⟨0, 0⟩)]⟩ :
          TimeTracker).game_time_cache)) :=
  ⟨by simp [dictLookup],
   C7_stop_restart_preserves_store _ "g" 1 1 2 2 (by simp [dictLookup])⟩

/-- C8 counterexample: from a tracker seeded with
`last_played = 120` for `"g"` (imported cache) and an active session, a
query at `now = 60` overwrites `last_played` with `60 < 120`: the stored
last-observed timestamp decreases. -/
theorem C8_last_played_decrease_counterexample :
    TimeTracker.init (some (pickle_dumps [("g", ⟨10, 120⟩)])) =
      .ok ⟨[], [("g", ⟨10, 120⟩)]⟩ ∧
    TimeTracker.start_tracking_game ⟨[], [("g", ⟨10, 120⟩)]⟩ "g" 7 7 =
      .ok ⟨[("g", ⟨some "g", some 7⟩)], [("g", ⟨10, 120⟩)]⟩ ∧
    (TimeTracker.get_tracked_time
        ⟨[("g", ⟨some "g", some 7⟩)], [("g", ⟨10, 120⟩)]⟩ "g" 60).map
      (fun p => dictLookup p.2.game_time_cache "g") = .ok (some ⟨9, 60⟩) ∧
    (60 : ℚ) < 120 := by
  refine ⟨?_, ?_, ?_, by norm_num⟩
  · simp [TimeTracker.init, pickle_loads_dumps]
  · norm_num [TimeTracker.start_tracking_game, dictLookup, dictSet]
  · norm_num [TimeTracker.get_tracked_time, dictLookup, dictSet, pyInt,
      Except.map]

/-- C8 amended: `last_observed_timestamp` is only ever rewritten by a query
on that entity, which sets it to the query's `now`; across one operation it
is non-decreasing provided any query of that entity happens at
`now ≥` the record's current `last_played` — with an earlier `now` (clock
moved backward, or a stale imported value) it decreases. -/
theorem C8_last_played_step_monotone (t : TimeTracker) (op : Op) (g : String)
    (r : Record) (hr : dictLookup t.game_time_cache g = some r)
    (hop : ∀ n, op = Op.query g n → r.last_played ≤ n) :
    ∃ r', dictLookup (stepOp t op).game_time_cache g = some r' ∧
      r.last_played ≤ r'.last_played := by
  cases op with
  | start g' s n =>
      refine ⟨r, ?_, le_refl _⟩
      cases h : dictLookup t.game_time_cache g' <;>
        simp [stepOp, TimeTracker.start_tracking_game, h, hr]
  | stop g' =>
      refine ⟨r, ?_, le_refl _⟩
      cases h : dictLookup t.running_games_dict g' <;>
        simp [stepOp, TimeTracker.stop_tracking_game, h, hr]
  | query g' n =>
      cases hrun : dictLookup t.running_games_dict g' with
      | none =>
          refine ⟨r, ?_, le_refl _⟩
          simp [stepOp, TimeTracker.get_tracked_time, hrun, hr]
      | some s =>
          by_cases hg : g' = g
          · subst hg
            refine ⟨⟨r.time_played + (n - r.last_played) / 60, n⟩, ?_,
              hop n rfl⟩
            simp [stepOp, get_tracked_time_ok t g' n s r hrun hr,
              dictLookup_set_self]
          · cases hc : dictLookup t.game_time_cache g' with
            | none =>
                refine ⟨r, ?_, le_refl _⟩
                simp [stepOp, TimeTracker.get_tracked_time, hrun, hc, hr]
            | some r2 =>
                refine ⟨r, ?_, le_refl _⟩
                have hne : g ≠ g' := fun hh => hg hh.symm
                simp [stepOp, get_tracked_time_ok t g' n s r2 hrun hc,
                  dictLookup_set_ne _ _ _ _ hne, hr]

/-- C8 witness: record `{0, 50}` for `"g"`, queried at `now = 60 ≥ 50`. -/
theorem C8_last_played_step_monotone_witness :
    (dictLookup (⟨[("g", ⟨some "g", some 1⟩)], [("g", ⟨0, 50⟩)]⟩ :
        TimeTracker).game_time_cache "g" = some ⟨0, 50⟩ ∧
     (∀ n, Op.query "g" 60 = Op.query "g" n →
        (Record.mk 0 50).last_played ≤ n)) ∧
    (∃ r', dictLookup (stepOp ⟨[("g", ⟨some "g", some 1⟩)], [("g", ⟨0, 50⟩)]⟩
        (Op.query "g" 60)).game_time_cache "g" = some r' ∧
      (Record.mk 0 50).last_played ≤ r'.last_played) :=
  ⟨⟨by simp [dictLookup], by rintro n ⟨rfl, rfl⟩; norm_num⟩,
   C8_last_played_step_monotone _ (Op.query "g" 60) "g" ⟨0, 50⟩
     (by simp [dictLookup]) (by rintro n ⟨rfl, rfl⟩; norm_num)⟩

/-- C9: in every state reachable from a successful construction by any
sequence of operations, every game with an entry in the running-session
registry also has an Accumulation Record, so `get_tracked_time`'s record
lookups never raise `KeyError`. -/
theorem C9_sessions_always_covered (cache : Option Blob) (t0 : TimeTracker)
    (ops : List Op) (h : TimeTracker.init cache = .ok t0) :
    SessionsCovered (runOps t0 ops) ∧
    ∀ g now, (runOps t0 ops).get_tracked_time g now ≠ .error .keyError := by
  have h0 : SessionsCovered t0 := by
    have hrun : t0.running_games_dict = [] := by
      cases cache with
      | none =>
          simp only [TimeTracker.init, Except.ok.injEq] at h
          subst h
          rfl
      | some b =>
          simp only [TimeTracker.init] at h
          split at h
          · simp only [Except.ok.injEq] at h
            subst h
            rfl
          · exact Except.noConfusion h
    intro g hg
    rw [hrun] at hg
    simp [dictLookup] at hg
  have hcov := runOps_sessionsCovered t0 ops h0
  exact ⟨hcov, fun g now => get_tracked_time_ne_keyError _ g now hcov⟩

/-- C9 witness: fresh tracker, then a start (which fails with `KeyError` on
the empty store and changes nothing) and a query. -/
theorem C9_sessions_always_covered_witness :
    TimeTracker.init none = .ok ⟨[], []⟩ ∧
    (SessionsCovered (runOps ⟨[], []⟩ [Op.start "g" 1 1, Op.query "g" 2]) ∧
     ∀ g now, (runOps ⟨[], []⟩
        [Op.start "g" 1 1, Op.query "g" 2]).get_tracked_time g now ≠
       .error .keyError) :=
  ⟨rfl, C9_sessions_always_covered none ⟨[], []⟩
    [Op.start "g" 1 1, Op.query "g" 2] rfl⟩

/-- C10: `get_tracked_time` never reads the Session's stored
`start_time`: two states with the same Accumulation Store in which the
entity has an active session (in particular, states differing only in that
session's start timestamp) yield the same snapshot and the same updated
store at the same current time. -/
theorem C10_query_ignores_session_start_time (t1 t2 : TimeTracker)
    (g : String) (s1 s2 : RunningGameInfo) (now : ℚ)
    (hc : t1.game_time_cache = t2.game_time_cache)
    (h1 : dictLookup t1.running_games_dict g = some s1)
    (h2 : dictLookup t2.running_games_dict g = some s2) :
    (t1.get_tracked_time g now).map (fun p => (p.1, p.2.game_time_cache)) =
    (t2.get_tracked_time g now).map (fun p => (p.1, p.2.game_time_cache)) := by
  cases hr : dictLookup t2.game_time_cache g with
  | none => simp [TimeTracker.get_tracked_time, h1, h2, hc, hr]
  | some r =>
      rw [get_tracked_time_ok t1 g now s1 r h1 (hc ▸ hr),
          get_tracked_time_ok t2 g now s2 r h2 hr]
      simp [hc, Except.map]

/-- C10 witness: two trackers identical except for the session start time
of `"g"` (1 versus 2). -/
theorem C10_query_ignores_session_start_time_witness :
    ((⟨[("g", ⟨some "g", some 1⟩)], [("g", ⟨0, 0⟩)]⟩ :
        TimeTracker).game_time_cache =
      (⟨[("g", ⟨some "g", some 2⟩)], [("g", ⟨0, 0⟩)]⟩ :
        TimeTracker).game_time_cache ∧
     dictLookup (⟨[("g", ⟨some "g", some 1⟩)], [("g", ⟨0, 0⟩)]⟩ :
        TimeTracker).running_games_dict "g" = some ⟨some "g", some 1⟩ ∧
     dictLookup (⟨[("g", ⟨some "g", some 2⟩)], [("g", ⟨0, 0⟩)]⟩ :
        TimeTracker).running_games_dict "g" = some ⟨some "g", some 2⟩) ∧
    (TimeTracker.get_tracked_time
        ⟨[("g", ⟨some "g", some 1⟩)], [("g", ⟨0, 0⟩)]⟩ "g" 90).map
      (fun p => (p.1, p.2.game_time_cache)) =
    (TimeTracker.get_tracked_time
        ⟨[("g", ⟨some "g", some 2⟩)], [("g", ⟨0, 0⟩)]⟩ "g" 90).map
      (fun p => (p.1, p.2.game_time_cache)) :=
  ⟨⟨rfl, by simp [dictLookup], by simp [dictLookup]⟩,
   C10_query_ignores_session_start_time _ _ "g" ⟨some "g", some 1⟩
     ⟨some "g", some 2⟩ 90 rfl (by simp [dictLookup]) (by simp [dictLookup])⟩
